import Mathlib

/-!
Verification development for the sheets_bitrix synchronization engine
(`sync_manager.py`, `startup.py`, `main_app.py`).

The Python code is shallowly embedded: dictionaries holding lead fields
become structures over `PyVal` (a Python value that is `None`, a string, or
a `datetime.date`), the PostgreSQL `leads_data` table becomes a list of
rows, the Google-Sheets fetch and the Bitrix upsert become oracles passed
as parameters, and the MD5 fingerprint is identified with the normalized
serialization string it digests (MD5 is a pure deterministic function of
that string, so equality/inequality of serializations corresponds to
equality/inequality of digests, assuming collision freedom).
-/

/-- A calendar date, embedding Python's `datetime.date` (year 1..9999). -/
structure MyDate where
  year : Nat
  month : Nat
  day : Nat
deriving DecidableEq, Repr

/-- Zero-pad a numeral to width 2, as Python's `%d`/`%m` formatting does. -/
def pad2 (n : Nat) : String :=
  if n < 10 then "0" ++ toString n else toString n

/-- Zero-pad a numeral to width 4, as Python's `%Y` formatting does. -/
def pad4 (n : Nat) : String :=
  if n < 10 then "000" ++ toString n
  else if n < 100 then "00" ++ toString n
  else if n < 1000 then "0" ++ toString n
  else toString n

/-- `str(d)` for a Python `datetime.date`: ISO `YYYY-MM-DD`. -/
def dateToIso (d : MyDate) : String :=
  pad4 d.year ++ "-" ++ pad2 d.month ++ "-" ++ pad2 d.day

/-- `d.strftime('%d/%m/%Y')`. -/
def dateToDMY (d : MyDate) : String :=
  pad2 d.day ++ "/" ++ pad2 d.month ++ "/" ++ pad4 d.year

/-- Whether `y` is a leap year (Gregorian rule, as `datetime` uses). -/
def isLeapYear (y : Nat) : Bool :=
  (y % 4 = 0 && y % 100 ≠ 0) || y % 400 = 0

/-- Number of days in month `m` of year `y`. -/
def daysInMonth (y m : Nat) : Nat :=
  if m = 2 then (if isLeapYear y then 29 else 28)
  else if m = 4 ∨ m = 6 ∨ m = 9 ∨ m = 11 then 30
  else 31

/-- Build a `datetime.date`, failing (as the constructor raises) on
out-of-range components. -/
def mkValidDate (y m d : Nat) : Option MyDate :=
  if 1 ≤ y ∧ y ≤ 9999 ∧ 1 ≤ m ∧ m ≤ 12 ∧ 1 ≤ d ∧ d ≤ daysInMonth y m then
    some ⟨y, m, d⟩
  else none

/-- Lower-case an ASCII letter, embedding the effect of Python's
`str.lower()` on the ASCII data this pipeline handles. -/
def pyCharLower (c : Char) : Char :=
  if 'A' ≤ c && c ≤ 'Z' then Char.ofNat (c.toNat + 32) else c

/-- Python `s.lower()` (character-wise; ASCII case mapping). -/
def pyLower (s : String) : String :=
  String.mk (s.data.map pyCharLower)

/-- The whitespace characters Python's default `str.strip()` removes
(ASCII subset). -/
def isSpaceChar (c : Char) : Bool :=
  c = ' ' || c = '\t' || c = '\n' || c = '\r' || c = '\x0b' || c = '\x0c'

/-- Python `s.strip()`: drop leading and trailing whitespace. -/
def pyStrip (s : String) : String :=
  String.mk (((s.data.dropWhile isSpaceChar).reverse.dropWhile isSpaceChar).reverse)

/-- Split a character list on a separator character (occurrences of the
separator delimit fields; `n` separators yield `n+1` fields). -/
def splitChar (sep : Char) : List Char → List Char → List (List Char)
  | [], acc => [acc.reverse]
  | c :: rest, acc =>
    if c = sep then acc.reverse :: splitChar sep rest []
    else splitChar sep rest (c :: acc)

/-- A nonempty all-digit character list. -/
def isDigitList (l : List Char) : Bool :=
  l ≠ [] && l.all Char.isDigit

/-- The numeral denoted by a digit list. -/
def natOfDigits (l : List Char) : Nat :=
  l.foldl (fun n c => n * 10 + (c.toNat - 48)) 0

/-- `datetime.strptime(s, '%d/%m/%Y').date()` as a partial function:
three `/`-separated numeric components (day and month 1-2 digits, year
1-4 digits), validated as a calendar date. Any other shape raises
`ValueError` in Python, i.e. returns `none` here. -/
def strptimeDMY (s : String) : Option MyDate :=
  match splitChar '/' s.data [] with
  | [ds, ms, ys] =>
    if isDigitList ds && ds.length ≤ 2 && isDigitList ms && ms.length ≤ 2
        && isDigitList ys && ys.length ≤ 4 then
      mkValidDate (natOfDigits ys) (natOfDigits ms) (natOfDigits ds)
    else none
  | _ => none

/-- `datetime.strptime(s, '%Y-%m-%d')` as a partial function: three
`-`-separated numeric components validated as a calendar date. In
particular any string containing `/` has no `-`-separated all-digit
3-component decomposition and fails, exactly as Python raises
`ValueError` on it. -/
def strptimeISO (s : String) : Option MyDate :=
  match splitChar '-' s.data [] with
  | [ys, ms, ds] =>
    if isDigitList ys && ys.length ≤ 4 && isDigitList ms && ms.length ≤ 2
        && isDigitList ds && ds.length ≤ 2 then
      mkValidDate (natOfDigits ys) (natOfDigits ms) (natOfDigits ds)
    else none
  | _ => none

/-- A Python value as stored in a lead record dictionary: `None`, a
string, or a `datetime.date`. -/
inductive PyVal where
  | pvNone : PyVal
  | pvStr : String → PyVal
  | pvDate : MyDate → PyVal
deriving DecidableEq, Repr

open PyVal

/-- Python `str(v)` for the values above (`str(None) = "None"`,
`str(date) = ISO format`). -/
def pyStr : PyVal → String
  | pvNone => "None"
  | pvStr s => s
  | pvDate d => dateToIso d

/-- A lead record dictionary restricted to the nine relevant fields used
by `SyncManager._calculate_record_hash` (the dictionaries at both call
sites carry all nine keys; `record.get(field, '')` therefore returns the
stored value). -/
structure PyRecord where
  data : PyVal
  cnpj : PyVal
  telefone : PyVal
  nome : PyVal
  empresa : PyVal
  consultor : PyVal
  forma_prospeccao : PyVal
  etapa : PyVal
  banco : PyVal
deriving DecidableEq, Repr

/-- One field's contribution to the serialization of
`_calculate_record_hash`: `value = str(record.get(field, '')).strip().lower()`,
then for the `data` field only, when the value is nonempty and contains
`/`, `datetime.strptime(value, '%Y-%m-%d')` is attempted and on success the
value is reformatted as `%d/%m/%Y`; the surrounding `try/except` turns a
parse failure into a no-op. -/
def normalizeHashValue (field : String) (v : PyVal) : String :=
  let value := pyLower (pyStrip (pyStr v))
  if field = "data" && value ≠ "" && value.data.contains '/' then
    match strptimeISO value with
    | some d => dateToDMY d
    | none => value
  else value

/-- One `f"{field}:{value}|"` piece of the serialization. -/
def hashPiece (field : String) (v : PyVal) : String :=
  field ++ ":" ++ normalizeHashValue field v ++ "|"

/-- `SyncManager._calculate_record_hash`: the normalized serialization of
the nine relevant fields, in source order. The source returns the MD5 hex
digest of this string; the model identifies the fingerprint with the
string itself, since MD5 is a deterministic function of it (and, assuming
collision freedom, an injective one). -/
def calculateRecordHash (r : PyRecord) : String :=
  hashPiece "data" r.data ++ hashPiece "cnpj" r.cnpj
    ++ hashPiece "telefone" r.telefone ++ hashPiece "nome" r.nome
    ++ hashPiece "empresa" r.empresa ++ hashPiece "consultor" r.consultor
    ++ hashPiece "forma_prospeccao" r.forma_prospeccao
    ++ hashPiece "etapa" r.etapa ++ hashPiece "banco" r.banco

/-- A record whose `data` field is the ISO-formatted string. -/
def recIsoDate : PyRecord :=
  { data := pvStr "2024-01-05", cnpj := pvStr "123", telefone := pvStr "555",
    nome := pvStr "Ana", empresa := pvStr "Acme", consultor := pvStr "X",
    forma_prospeccao := pvStr "Y", etapa := pvStr "Z", banco := pvStr "B" }

/-- The same record with the same date written as `05/01/2024`. -/
def recSlashDate : PyRecord :=
  { recIsoDate with data := pvStr "05/01/2024" }

/-- C3: for records identical except for the textual formatting of the
date field (`"2024-01-05"` vs `"05/01/2024"`), the fingerprint function
does NOT return the same hash: the normalization branch parses a
slash-containing value with the format `'%Y-%m-%d'`, which always raises,
so neither representation is rewritten and the serializations (hence the
MD5 digests) differ. The code's own comment says it tries to convert the
date to a standard format, so the dead branch is a slip in the code. -/
theorem calculate_record_hash_date_formats_differ :
    calculateRecordHash recIsoDate ≠ calculateRecordHash recSlashDate
      ∧ strptimeISO "05/01/2024" = none
      ∧ recIsoDate.cnpj = recSlashDate.cnpj := by
  refine ⟨by decide, by decide, rfl⟩

/-! ## The leads_data table and the snapshots -/

/-- One row of the `leads_data` table, and equally one tuple of
`all_insert_values` (the INSERT column list and the SELECT used by
`_capture_current_snapshot` share these nine payload columns; the
additional `id`, `created_at` and `updated_at` columns returned by the
SELECT are excluded from the hash's `relevant_fields`, so they are not
modelled). `banco` holds the sheet name the row came from. -/
structure LeadRow where
  data : Option MyDate
  cnpj : Option String
  telefone : Option String
  nome : Option String
  empresa : Option String
  consultor : Option String
  forma_prospeccao : Option String
  etapa : Option String
  banco : String
deriving DecidableEq, Repr

/-- The Python value stored for an optional text column (`None` or `str`). -/
def optStrToPyVal : Option String → PyVal
  | none => pvNone
  | some s => pvStr s

/-- The Python value stored for the `data` column (`None` or `date`). -/
def optDateToPyVal : Option MyDate → PyVal
  | none => pvNone
  | some d => pvDate d

/-- The record dictionary built for a `leads_data` row / insert tuple,
as both `_capture_current_snapshot` and `_create_new_data_snapshot`
build it (field names in the insertion order). -/
def leadRowToPyRecord (r : LeadRow) : PyRecord :=
  { data := optDateToPyVal r.data, cnpj := optStrToPyVal r.cnpj,
    telefone := optStrToPyVal r.telefone, nome := optStrToPyVal r.nome,
    empresa := optStrToPyVal r.empresa, consultor := optStrToPyVal r.consultor,
    forma_prospeccao := optStrToPyVal r.forma_prospeccao,
    etapa := optStrToPyVal r.etapa, banco := pvStr r.banco }

/-- The fingerprint of a `leads_data` row. -/
def rowHash (r : LeadRow) : String :=
  calculateRecordHash (leadRowToPyRecord r)

/-- A snapshot: the insertion-ordered dictionary from fingerprint to
record, as a key-value list. -/
abbrev Snapshot : Type := List (String × PyRecord)

/-- `k in snapshot` (Python dictionary key membership). -/
def snapshotHasKey (s : Snapshot) (k : String) : Bool :=
  List.any s (fun p => p.1 = k)

/-- `snapshot[k] = v` (Python dictionary assignment): overwrite in place
when the key exists, append otherwise. -/
def snapshotAssign (s : Snapshot) (k : String) (v : PyRecord) : Snapshot :=
  if snapshotHasKey s k then
    List.map (fun p => if p.1 = k then (k, v) else p) s
  else s ++ [(k, v)]

/-- The loop body of `_capture_current_snapshot`:
`snapshot[record_hash] = record_dict`. -/
def captureStep (snap : Snapshot) (row : LeadRow) : Snapshot :=
  snapshotAssign snap (rowHash row) (leadRowToPyRecord row)

/-- `SyncManager._capture_current_snapshot`: hash every row currently in
`leads_data` (in table order) and store `snapshot[hash] = row_dict`. -/
def captureCurrentSnapshot (db : List LeadRow) : Snapshot :=
  List.foldl captureStep ([] : Snapshot) db

/-- The loop body of `_create_new_data_snapshot`: a tuple whose hash is
already present is counted as a duplicate and skipped, otherwise
`snapshot[record_hash] = record_dict`. -/
def createStep (snap : Snapshot) (v : LeadRow) : Snapshot :=
  if snapshotHasKey snap (rowHash v) then snap
  else snap ++ [(rowHash v, leadRowToPyRecord v)]

/-- `SyncManager._create_new_data_snapshot` over the insert tuples. -/
def createNewDataSnapshot (vals : List LeadRow) : Snapshot :=
  List.foldl createStep ([] : Snapshot) vals

/-- The three collections returned by `_compare_snapshots`. The source
appends the dictionary's value; the pair keeps the snapshot key (the
value's fingerprint) alongside, so that fingerprint-level properties can
be stated. -/
structure SnapshotDiff where
  newRecords : List (String × PyRecord)
  removedRecords : List (String × PyRecord)
  unchangedRecords : List (String × PyRecord)
deriving DecidableEq, Repr

/-- `SyncManager._compare_snapshots`: new = in the new snapshot but not
the old; removed = in the old but not the new; unchanged = in the old
with the same hash present in the new. -/
def compareSnapshots (oldSnap newSnap : Snapshot) : SnapshotDiff :=
  { newRecords := List.filter (fun p => !(snapshotHasKey oldSnap p.1)) newSnap,
    removedRecords := List.filter (fun p => !(snapshotHasKey newSnap p.1)) oldSnap,
    unchangedRecords := List.filter (fun p => snapshotHasKey newSnap p.1) oldSnap }

/-! ## Sheet rows and the per-row mapping of the resync -/

/-- One data row of a fetched sheet, after the
`row.get('Data', row.get('data', ''))`-style lookups of
`clear_and_resync_database`: each relevant column as the string the
sheet carries (missing columns default to `''`). -/
structure SheetRow where
  data : String
  cnpj : String
  telefone : String
  nome : String
  empresa : String
  consultor : String
  forma_prospeccao : String
  etapa : String
deriving DecidableEq, Repr

/-- `value or None`: the empty string is falsy and becomes `NULL`. -/
def strOrNone (s : String) : Option String :=
  if s = "" then none else some s

/-- The row-acceptance gate: `has_cnpj = cnpj_value and cnpj_value.strip()`,
`has_telefone = telefone_value and telefone_value.strip()`, and the row is
kept only `if (has_cnpj or has_telefone)` (both Python-truthy tests). -/
def rowAccepted (row : SheetRow) : Bool :=
  (row.cnpj ≠ "" && pyStrip row.cnpj ≠ "") || (row.telefone ≠ "" && pyStrip row.telefone ≠ "")

/-- The `parsed_date` computation: attempt `strptime('%d/%m/%Y')` on the
stripped value when it is nonempty; on `ValueError` a warning is logged
and the date stays `None`. -/
def parseRowDate (s : String) : Option MyDate :=
  if s ≠ "" && pyStrip s ≠ "" then strptimeDMY (pyStrip s) else none

/-- The insert tuple built for an accepted sheet row (`sheet_name` is
stored as the `banco` column). -/
def processRow (sheetName : String) (row : SheetRow) : LeadRow :=
  { data := parseRowDate row.data, cnpj := strOrNone row.cnpj,
    telefone := strOrNone row.telefone, nome := strOrNone row.nome,
    empresa := strOrNone row.empresa, consultor := strOrNone row.consultor,
    forma_prospeccao := strOrNone row.forma_prospeccao,
    etapa := strOrNone row.etapa, banco := sheetName }

/-- The per-sheet loop body of step 4 of `clear_and_resync_database`:
rows failing the cnpj/telefone gate are skipped by `continue` (they are
counted neither as processed nor as failed); the rest are mapped to
insert tuples in order. `failed_count` increments only when a row raises,
which a well-typed row dictionary of strings never does. -/
def processSheetRows (sheetName : String) (rows : List SheetRow) : List LeadRow :=
  List.map (processRow sheetName) (List.filter rowAccepted rows)

/-! ## Sheet validation (the all-or-nothing gate) -/

/-- The payload of a successful `get_sheet_data_as_json` call: the sheet
name from `sheet_info` and the data rows. -/
structure SheetData where
  sheetName : String
  rows : List SheetRow
deriving DecidableEq, Repr

/-- `SyncManager._validate_all_sheets_data_before_sync`: fetch every
configured sheet in order; the first fetch that raises aborts the whole
validation with an error (re-raised to the caller), and only if every
sheet fetched successfully is the validated data returned. The fetch
outcome per sheet id is the input (`Except` models the raised
exception). -/
def validateAllSheetsDataBeforeSync :
    List (Nat × Except String SheetData) → Except String (List (Nat × SheetData))
  | [] => Except.ok []
  | (sid, Except.error e) :: _ =>
    Except.error ("Erro ao buscar dados da aba ID " ++ toString sid ++ ": " ++ e)
  | (sid, Except.ok d) :: rest =>
    match validateAllSheetsDataBeforeSync rest with
    | Except.ok l => Except.ok ((sid, d) :: l)
    | Except.error e => Except.error e

/-! ## Bitrix propagation -/

/-- `record.get(f, '').strip() if record.get(f) else ''` for the cnpj and
telefone fields of a record dictionary (`None` and `''` are falsy). A
date value never occurs in these fields for records produced by the
snapshots. -/
def bitrixGetField (v : PyVal) : String :=
  match v with
  | pvStr s => if s = "" then "" else pyStrip s
  | _ => ""

/-- The summary `_process_bitrix_updates` returns: counters plus the
successful/failed record collections. -/
structure BitrixOutcome where
  processed : Nat
  successful : Nat
  failed : Nat
  skipped : Nat
  successfulRecords : List PyRecord
  failedRecords : List PyRecord
deriving DecidableEq, Repr

/-- The all-zero summary (the `processed: 0, successful: 0, failed: 0,
skipped: 0` dictionaries of the early returns). -/
def emptyBitrixOutcome : BitrixOutcome :=
  { processed := 0, successful := 0, failed := 0, skipped := 0,
    successfulRecords := [], failedRecords := [] }

/-- Whether `json.dumps` can serialize a value of a record dictionary:
`None` and `str` are JSON-serializable, a `datetime.date` raises
`TypeError: Object of type date is not JSON serializable`. -/
def pyValJsonSerializable : PyVal → Bool
  | pvDate _ => false
  | _ => true

/-- Whether `json.dumps(record, ensure_ascii=False)` succeeds on a lead
record dictionary: every field value must be serializable (for records
produced by this pipeline only `data` can be a `datetime.date`). -/
def recordJsonSerializable (r : PyRecord) : Bool :=
  pyValJsonSerializable r.data && pyValJsonSerializable r.cnpj
    && pyValJsonSerializable r.telefone && pyValJsonSerializable r.nome
    && pyValJsonSerializable r.empresa && pyValJsonSerializable r.consultor
    && pyValJsonSerializable r.forma_prospeccao
    && pyValJsonSerializable r.etapa && pyValJsonSerializable r.banco

/-- The per-record loop of `_process_bitrix_updates` over the records it
iterates (already truncated to the first 50). `upsert i r` is the outcome
of the `create_or_update_deal` call for the record at 0-based position
`i`: `Except.ok action` is the returned action string
(`created`/`updated` count as successful, anything else as failed);
`Except.error` models a raised exception. A record with neither cnpj nor
telefone is skipped before the call. The per-record `except` handler
logs `json.dumps(record, ensure_ascii=False)` BEFORE updating any
counter; when the failing record is not JSON-serializable (its `data`
holds a `datetime.date`), that call raises `TypeError` inside the
handler, which escapes the per-record `except` and aborts the whole
loop (`Except.error` result); otherwise the record is counted as failed
and the loop continues. -/
def processBitrixRecords (upsert : Nat → PyRecord → Except String String) :
    Nat → List PyRecord → Except String BitrixOutcome
  | _, [] => Except.ok emptyBitrixOutcome
  | i, r :: rest =>
    if bitrixGetField r.cnpj = "" && bitrixGetField r.telefone = "" then
      match processBitrixRecords upsert (i + 1) rest with
      | Except.ok o => Except.ok { o with skipped := o.skipped + 1 }
      | Except.error e => Except.error e
    else
      match upsert i r with
      | Except.ok action =>
        match processBitrixRecords upsert (i + 1) rest with
        | Except.ok o =>
          if action = "created" || action = "updated" then
            Except.ok { o with processed := o.processed + 1,
                               successful := o.successful + 1,
                               successfulRecords := r :: o.successfulRecords }
          else
            Except.ok { o with processed := o.processed + 1,
                               failed := o.failed + 1,
                               failedRecords := r :: o.failedRecords }
        | Except.error e => Except.error e
      | Except.error _ =>
        if recordJsonSerializable r then
          match processBitrixRecords upsert (i + 1) rest with
          | Except.ok o => Except.ok { o with processed := o.processed + 1,
                                              failed := o.failed + 1,
                                              failedRecords := r :: o.failedRecords }
          | Except.error e => Except.error e
        else
          Except.error "TypeError: Object of type date is not JSON serializable"

/-- `SyncManager._process_bitrix_updates` (with `BITRIX_URL` configured,
called with the new records and no updated records): an empty record
list short-circuits to the all-zero summary; otherwise the slice
`all_records_to_process[:50]` is iterated. An exception escaping the
loop (the handler's `json.dumps` TypeError) is caught by the OUTER
`except`, which returns `processed=0, successful=0, skipped=0` and
`failed = len(all_records_to_process)` — the full, un-sliced record
count (the returned dictionary carries no record collections). -/
def processBitrixUpdates (upsert : Nat → PyRecord → Except String String)
    (newRecords : List PyRecord) : BitrixOutcome :=
  if newRecords.isEmpty then emptyBitrixOutcome
  else
    match processBitrixRecords upsert 0 (newRecords.take 50) with
    | Except.ok o => o
    | Except.error _ =>
      { processed := 0, successful := 0, failed := newRecords.length,
        skipped := 0, successfulRecords := [], failedRecords := [] }

/-! ## The sync cycle (clear_and_resync_database) -/

/-- The observable outcome of one `clear_and_resync_database` call: the
persisted `leads_data` rows after the call, the `SyncResult` fields the
claims mention, the final status written to the `sync_log` audit entry
by `log_sync_end`, and the Bitrix summary (absent on the paths that
return before step 10). -/
structure CycleOutcome where
  db : List LeadRow
  totalProcessed : Nat
  totalInserted : Nat
  failedRecords : Nat
  errorMessage : Option String
  newRecords : List (String × PyRecord)
  removedRecords : List (String × PyRecord)
  unchangedRecords : List (String × PyRecord)
  bitrix : Option BitrixOutcome
  loggedStatus : String

/-- The concatenation of `all_insert_values` over the validated sheets,
in sheet order. -/
def cycleInsertValues (validated : List (Nat × SheetData)) : List LeadRow :=
  List.foldl (fun acc p => acc ++ processSheetRows p.2.sheetName p.2.rows)
    ([] : List LeadRow) validated

/-- `result.total_processed`: the accepted rows summed over the sheets. -/
def cycleTotalProcessed (validated : List (Nat × SheetData)) : Nat :=
  List.foldl (fun n p => n + (List.filter rowAccepted p.2.rows).length) 0 validated

/-- `SyncManager.clear_and_resync_database` over a starting table state
`db`, with the sheet-fetch outcomes `sheets`, the success of the
`execute_values` bulk insert (`insertOk`) and the Bitrix upsert oracle as
inputs.

The connection runs with `autocommit = True` (`StartupModule.connect_database`),
so each statement commits individually: the `DELETE FROM leads_data`
persists even when the subsequent bulk insert raises, in which case the
outer `except` returns an error result over the now-empty table.

Validation failure returns before any database statement. On the success
path `log_sync_end` is invoked (step 9) with
`status='SUCCESS' if not result.error_message else 'PARTIAL'` while
`result.error_message` is still `None`, and only afterwards (step 10) is
`_process_bitrix_updates` called on the new records (the source
short-circuits to an all-zero summary when there are none, which
coincides with `processBitrixUpdates` on `[]`). -/
def clearAndResyncDatabase (db : List LeadRow)
    (sheets : List (Nat × Except String SheetData))
    (insertOk : Bool)
    (upsert : Nat → PyRecord → Except String String) : CycleOutcome :=
  match validateAllSheetsDataBeforeSync sheets with
  | Except.error e =>
    { db := db, totalProcessed := 0, totalInserted := 0, failedRecords := 0,
      errorMessage := some ("Validacao falhou: " ++ e),
      newRecords := [], removedRecords := [], unchangedRecords := [],
      bitrix := none, loggedStatus := "ERROR" }
  | Except.ok validated =>
    let oldSnapshot := captureCurrentSnapshot db
    -- DELETE FROM leads_data (committed immediately under autocommit)
    let allInsertValues := cycleInsertValues validated
    let newSnapshot := createNewDataSnapshot allInsertValues
    if !allInsertValues.isEmpty && !insertOk then
      -- execute_values raised: caught by the outer except, which records
      -- ERROR and returns; the delete already committed, the insert did not.
      { db := [], totalProcessed := cycleTotalProcessed validated,
        totalInserted := 0, failedRecords := 0,
        errorMessage := some "Erro durante sincronizacao: insert falhou",
        newRecords := [], removedRecords := [], unchangedRecords := [],
        bitrix := none, loggedStatus := "ERROR" }
    else
      let diff := compareSnapshots oldSnapshot newSnapshot
      -- result.error_message is still None here, so the status expression
      -- 'SUCCESS' if not result.error_message else 'PARTIAL' yields SUCCESS.
      let errorMessageAtLog : Option String := none
      let logged := if errorMessageAtLog.isNone then "SUCCESS" else "PARTIAL"
      let newRecordValues := List.map Prod.snd diff.newRecords
      { db := allInsertValues, totalProcessed := cycleTotalProcessed validated,
        totalInserted := allInsertValues.length, failedRecords := 0,
        errorMessage := none,
        newRecords := diff.newRecords, removedRecords := diff.removedRecords,
        unchangedRecords := diff.unchangedRecords,
        bitrix := some (processBitrixUpdates upsert newRecordValues),
        loggedStatus := logged }

/-! ## The continuous sync loop (MainApp._continuous_sync_loop) -/

/-- An observable action of one iteration of the continuous sync loop:
a sync-cycle attempt (numbered from 0 within the iteration), the
`time.sleep(retry_delay_seconds)` before a retry, or the
`time.sleep(sync_interval_seconds)` before the next regular cycle. -/
inductive LoopEvent where
  | attempt : Nat → LoopEvent
  | sleepRetry : LoopEvent
  | sleepInterval : LoopEvent
deriving DecidableEq, Repr

/-- The retry loop `while retry_count < max_retries and self.is_running`
(with the app running): each pass sleeps the fixed retry delay and
re-attempts the cycle, stopping on the first success; `attemptResult k`
is the outcome of the `k`-th attempt of this iteration (the initial
attempt is number 0). The fuel is `max_retries - retry_count`, so the
loop is bounded by construction. -/
def retryTrace (attemptResult : Nat → Bool) : Nat → Nat → List LoopEvent
  | 0, _ => []
  | fuel + 1, k =>
    LoopEvent.sleepRetry :: LoopEvent.attempt k ::
      (if attemptResult k then [] else retryTrace attemptResult fuel (k + 1))

/-- One iteration of `MainApp._continuous_sync_loop` while the app is
running: the initial `_perform_sync_cycle` attempt, the retry loop when
it failed, and finally the `time.sleep(sync_interval_seconds)` wait for
the next regular cycle (reached whether or not the retries exhausted:
exhaustion only logs an error, it neither raises nor stops the loop). -/
def syncLoopBodyTrace (maxRetries : Nat) (attemptResult : Nat → Bool) : List LoopEvent :=
  LoopEvent.attempt 0 ::
    ((if attemptResult 0 then [] else retryTrace attemptResult maxRetries 1)
      ++ [LoopEvent.sleepInterval])

/-! ## C4: the snapshot differ partitions the fingerprints -/

/-- The fingerprints of the differ's `new` collection: present in the
after-snapshot and absent from the before-snapshot. -/
theorem mem_keys_newRecords (o n : Snapshot) (k : String) :
    k ∈ List.map Prod.fst (compareSnapshots o n).newRecords
      ↔ (∃ p ∈ n, p.1 = k) ∧ ¬(∃ q ∈ o, q.1 = k) := by
  simp only [compareSnapshots, List.mem_map, List.mem_filter, snapshotHasKey,
    Bool.not_eq_true', List.any_eq_false, decide_eq_true_eq]
  constructor
  · rintro ⟨p, ⟨hpn, hcond⟩, rfl⟩
    exact ⟨⟨p, hpn, rfl⟩, fun h => by rcases h with ⟨q, hqo, hqk⟩; exact hcond q hqo hqk⟩
  · rintro ⟨⟨p, hpn, rfl⟩, hno⟩
    exact ⟨p, ⟨hpn, fun q hqo hqk => hno ⟨q, hqo, hqk⟩⟩, rfl⟩

/-- The fingerprints of the differ's `removed` collection: present in the
before-snapshot and absent from the after-snapshot. -/
theorem mem_keys_removedRecords (o n : Snapshot) (k : String) :
    k ∈ List.map Prod.fst (compareSnapshots o n).removedRecords
      ↔ (∃ p ∈ o, p.1 = k) ∧ ¬(∃ q ∈ n, q.1 = k) := by
  simp only [compareSnapshots, List.mem_map, List.mem_filter, snapshotHasKey,
    Bool.not_eq_true', List.any_eq_false, decide_eq_true_eq]
  constructor
  · rintro ⟨p, ⟨hpo, hcond⟩, rfl⟩
    exact ⟨⟨p, hpo, rfl⟩, fun h => by rcases h with ⟨q, hqn, hqk⟩; exact hcond q hqn hqk⟩
  · rintro ⟨⟨p, hpo, rfl⟩, hno⟩
    exact ⟨p, ⟨hpo, fun q hqn hqk => hno ⟨q, hqn, hqk⟩⟩, rfl⟩

/-- The fingerprints of the differ's `unchanged` collection: present in
both snapshots. -/
theorem mem_keys_unchangedRecords (o n : Snapshot) (k : String) :
    k ∈ List.map Prod.fst (compareSnapshots o n).unchangedRecords
      ↔ (∃ p ∈ o, p.1 = k) ∧ (∃ q ∈ n, q.1 = k) := by
  simp only [compareSnapshots, List.mem_map, List.mem_filter, snapshotHasKey,
    List.any_eq_true, decide_eq_true_eq]
  constructor
  · rintro ⟨p, ⟨hpo, q, hqn, hqk⟩, rfl⟩
    exact ⟨⟨p, hpo, rfl⟩, q, hqn, hqk⟩
  · rintro ⟨⟨p, hpo, rfl⟩, q, hqn, hqk⟩
    exact ⟨p, ⟨hpo, q, hqn, hqk⟩, rfl⟩

/-- C4: for every before/after snapshot pair, at the fingerprint level,
new ∪ unchanged equals the after-snapshot's key set, removed ∪ unchanged
equals the before-snapshot's key set, and the three fingerprint sets are
pairwise disjoint. -/
theorem compare_snapshots_partition (oldSnap newSnap : Snapshot) :
    (∀ k, (k ∈ List.map Prod.fst (compareSnapshots oldSnap newSnap).newRecords
          ∨ k ∈ List.map Prod.fst (compareSnapshots oldSnap newSnap).unchangedRecords)
        ↔ k ∈ List.map Prod.fst newSnap)
    ∧ (∀ k, (k ∈ List.map Prod.fst (compareSnapshots oldSnap newSnap).removedRecords
          ∨ k ∈ List.map Prod.fst (compareSnapshots oldSnap newSnap).unchangedRecords)
        ↔ k ∈ List.map Prod.fst oldSnap)
    ∧ (∀ k, ¬(k ∈ List.map Prod.fst (compareSnapshots oldSnap newSnap).newRecords
          ∧ k ∈ List.map Prod.fst (compareSnapshots oldSnap newSnap).removedRecords))
    ∧ (∀ k, ¬(k ∈ List.map Prod.fst (compareSnapshots oldSnap newSnap).newRecords
          ∧ k ∈ List.map Prod.fst (compareSnapshots oldSnap newSnap).unchangedRecords))
    ∧ (∀ k, ¬(k ∈ List.map Prod.fst (compareSnapshots oldSnap newSnap).removedRecords
          ∧ k ∈ List.map Prod.fst (compareSnapshots oldSnap newSnap).unchangedRecords)) := by
  have hmem : ∀ (s : Snapshot) (k : String),
      k ∈ List.map Prod.fst s ↔ ∃ p ∈ s, p.1 = k := by
    intro s k
    simp only [List.mem_map]
  refine ⟨?_, ?_, ?_, ?_, ?_⟩ <;> intro k
  · rw [mem_keys_newRecords, mem_keys_unchangedRecords, hmem newSnap k]
    generalize (∃ p ∈ newSnap, p.1 = k) = A
    generalize (∃ p ∈ oldSnap, p.1 = k) = B
    tauto
  · rw [mem_keys_removedRecords, mem_keys_unchangedRecords, hmem oldSnap k]
    generalize (∃ p ∈ newSnap, p.1 = k) = A
    generalize (∃ p ∈ oldSnap, p.1 = k) = B
    tauto
  · rw [mem_keys_newRecords, mem_keys_removedRecords]
    generalize (∃ p ∈ newSnap, p.1 = k) = A
    generalize (∃ p ∈ oldSnap, p.1 = k) = B
    tauto
  · rw [mem_keys_newRecords, mem_keys_unchangedRecords]
    generalize (∃ p ∈ newSnap, p.1 = k) = A
    generalize (∃ p ∈ oldSnap, p.1 = k) = B
    tauto
  · rw [mem_keys_removedRecords, mem_keys_unchangedRecords]
    generalize (∃ p ∈ newSnap, p.1 = k) = A
    generalize (∃ p ∈ oldSnap, p.1 = k) = B
    tauto

/-! ## C10: only the first 50 records are attempted -/

/-- When the per-record loop completes, every iterated record
contributes exactly one unit to either `processed` or `skipped`. -/
theorem processBitrixRecords_processed_add_skipped
    (u : Nat → PyRecord → Except String String) :
    ∀ (l : List PyRecord) (i : Nat) (o : BitrixOutcome),
      processBitrixRecords u i l = Except.ok o →
        o.processed + o.skipped = l.length := by
  intro l
  induction l with
  | nil =>
    intro i o h
    simp [processBitrixRecords] at h
    subst h
    simp [emptyBitrixOutcome]
  | cons r rest ih =>
    intro i o h
    simp only [processBitrixRecords] at h
    rw [List.length_cons]
    split at h
    · cases hrec : processBitrixRecords u (i + 1) rest with
      | ok o' =>
        rw [hrec] at h
        simp at h
        have hsum := ih (i + 1) o' hrec
        subst h
        simp
        omega
      | error e => rw [hrec] at h; simp at h
    · cases hup : u i r with
      | ok action =>
        rw [hup] at h
        cases hrec : processBitrixRecords u (i + 1) rest with
        | ok o' =>
          rw [hrec] at h
          have hsum := ih (i + 1) o' hrec
          simp at h
          split at h <;> (simp at h; subst h; simp; omega)
        | error e => rw [hrec] at h; simp at h
      | error e =>
        rw [hup] at h
        simp only [] at h
        split at h
        · cases hrec : processBitrixRecords u (i + 1) rest with
          | ok o' =>
            rw [hrec] at h
            simp at h
            have hsum := ih (i + 1) o' hrec
            subst h
            simp
            omega
          | error e2 => rw [hrec] at h; simp at h
        · simp at h

/-- A record whose `data` field holds a parsed `datetime.date` — the
normal shape for a row whose sheet date cell parsed (`parsed_date` is
stored in the insert tuple and hence in the new-records snapshot). Such
a record is not JSON-serializable. -/
def dateRecord : PyRecord :=
  { data := pvDate ⟨2024, 1, 5⟩, cnpj := pvStr "123", telefone := pvStr "555",
    nome := pvStr "Ana", empresa := pvStr "Acme", consultor := pvStr "X",
    forma_prospeccao := pvStr "Y", etapa := pvStr "Z", banco := pvStr "B" }

/-- An upsert oracle whose calls always raise. -/
def failUpsert : Nat → PyRecord → Except String String :=
  fun _ _ => Except.error "Bitrix down"

/-- Counterexample to C10 as stated: a 51-record partition of
date-carrying records whose first upsert raises. The per-record handler
calls `json.dumps` on the date-carrying record, which raises TypeError
and reaches the OUTER `except`, and that handler reports
`failed = len(all_records_to_process)` — the full 51, not capped by the
`[:50]` slice — so the record beyond the 50th IS counted in that
cycle's failed total, and the outcome differs from the outcome on the
first 50 records alone. -/
theorem failed_total_uncapped_on_handler_abort_cex :
    (processBitrixUpdates failUpsert (List.replicate 51 dateRecord)).failed = 51
      ∧ 50 < (processBitrixUpdates failUpsert (List.replicate 51 dateRecord)).failed
      ∧ processBitrixUpdates failUpsert (List.replicate 51 dateRecord)
          ≠ processBitrixUpdates failUpsert ((List.replicate 51 dateRecord).take 50) := by
  decide

/-- C10 (amended): at most the first 50 records of the new-records
partition are ever attempted (the loop iterates only the `[:50]` slice,
so no record past position 50 is upserted); and whenever the iterated
slice completes without the error handler itself raising — in
particular whenever every record whose upsert raises is
JSON-serializable — the propagation outcome depends only on the first
50 records and its per-record counters account for at most 50 records.
(When the handler does raise, the outer handler instead reports
`failed` equal to the full, un-sliced partition length.) -/
theorem process_bitrix_updates_first_fifty
    (u : Nat → PyRecord → Except String String) (records : List PyRecord)
    (h : ∃ o, processBitrixRecords u 0 (records.take 50) = Except.ok o) :
    processBitrixUpdates u records = processBitrixUpdates u (records.take 50)
      ∧ (processBitrixUpdates u records).processed
          + (processBitrixUpdates u records).skipped ≤ 50 := by
  obtain ⟨o, ho⟩ := h
  rcases records with _ | ⟨r, rest⟩
  · exact ⟨by simp, by simp [processBitrixUpdates, emptyBitrixOutcome]⟩
  · have hne : ((r :: rest) : List PyRecord).isEmpty = false := rfl
    have htake : ((r :: rest) : List PyRecord).take 50 = r :: rest.take 49 := by
      rw [show (50 : Nat) = 49 + 1 from rfl, List.take_succ_cons]
    have hne2 : (((r :: rest) : List PyRecord).take 50).isEmpty = false := by
      rw [htake]; rfl
    have htt : (((r :: rest) : List PyRecord).take 50).take 50
        = ((r :: rest) : List PyRecord).take 50 := by
      rw [List.take_take]
      norm_num
    constructor
    · simp only [processBitrixUpdates, hne, hne2, Bool.false_eq_true, if_false]
      rw [htt, ho]
    · simp only [processBitrixUpdates, hne, Bool.false_eq_true, if_false]
      rw [ho]
      have hsum := processBitrixRecords_processed_add_skipped u
        (((r :: rest) : List PyRecord).take 50) 0 o ho
      rw [hsum]
      exact List.length_take_le 50 (r :: rest)

/-- Witness for the amended C10 at a 2-record partition whose loop
completes (all upserts succeed, so the handler never runs). -/
theorem process_bitrix_updates_first_fifty_witness :
    (∃ o, processBitrixRecords (fun _ _ => Except.ok "created") 0
        (([dateRecord, dateRecord] : List PyRecord).take 50) = Except.ok o)
      ∧ (processBitrixUpdates (fun _ _ => Except.ok "created")
            [dateRecord, dateRecord]
          = processBitrixUpdates (fun _ _ => Except.ok "created")
            (([dateRecord, dateRecord] : List PyRecord).take 50)
        ∧ (processBitrixUpdates (fun _ _ => Except.ok "created")
            [dateRecord, dateRecord]).processed
          + (processBitrixUpdates (fun _ _ => Except.ok "created")
            [dateRecord, dateRecord]).skipped ≤ 50) :=
  ⟨⟨⟨2, 2, 0, 0, [dateRecord, dateRecord], []⟩, rfl⟩,
    process_bitrix_updates_first_fifty (fun _ _ => Except.ok "created")
      [dateRecord, dateRecord]
      ⟨⟨2, 2, 0, 0, [dateRecord, dateRecord], []⟩, rfl⟩⟩

/-! ## C9: bounded retry in the continuous sync loop -/

/-- C9: with `max_retries = 3` and a cycle that fails on every attempt,
one iteration of the continuous sync loop performs the initial attempt
and then exactly 3 retry attempts, each preceded by the fixed
`retry_delay_seconds` sleep, after which it stops retrying and waits for
the next regular interval; the trace is a finite list by construction,
so the loop neither retries indefinitely, terminates, nor crashes. -/
theorem sync_loop_bounded_retry (attemptResult : Nat → Bool)
    (h : ∀ n, attemptResult n = false) :
    syncLoopBodyTrace 3 attemptResult =
      [LoopEvent.attempt 0, LoopEvent.sleepRetry, LoopEvent.attempt 1,
       LoopEvent.sleepRetry, LoopEvent.attempt 2, LoopEvent.sleepRetry,
       LoopEvent.attempt 3, LoopEvent.sleepInterval] := by
  simp [syncLoopBodyTrace, retryTrace, h]

/-- Witness for C9 at the always-failing cycle. -/
theorem sync_loop_bounded_retry_witness :
    (∀ n : Nat, (fun _ => false) n = false)
      ∧ syncLoopBodyTrace 3 (fun _ => false) =
        [LoopEvent.attempt 0, LoopEvent.sleepRetry, LoopEvent.attempt 1,
         LoopEvent.sleepRetry, LoopEvent.attempt 2, LoopEvent.sleepRetry,
         LoopEvent.attempt 3, LoopEvent.sleepInterval] :=
  ⟨fun _ => rfl, sync_loop_bounded_retry (fun _ => false) (fun _ => rfl)⟩

/-! ## C2: a failed fetch cancels the cycle before any mutation -/

/-- A sheet list containing a failed fetch always makes the validation
raise. -/
theorem validate_error_of_failed_sheet
    (sheets : List (Nat × Except String SheetData))
    (h : ∃ p ∈ sheets, ∃ e, p.2 = Except.error e) :
    ∃ msg, validateAllSheetsDataBeforeSync sheets = Except.error msg := by
  induction sheets with
  | nil => rcases h with ⟨p, hp, _⟩; cases hp
  | cons q rest ih =>
    rcases q with ⟨sid, fe⟩
    cases fe with
    | error e => exact ⟨_, rfl⟩
    | ok d =>
      rcases h with ⟨p, hp, e, hpe⟩
      rcases List.mem_cons.mp hp with rfl | hmem
      · cases hpe
      · obtain ⟨msg, hmsg⟩ := ih ⟨p, hmem, e, hpe⟩
        refine ⟨msg, ?_⟩
        simp [validateAllSheetsDataBeforeSync, hmsg]

/-- C2: if any configured sheet fails to fetch, the cycle leaves the
persisted `leads_data` rows exactly as they were (nothing is deleted,
nothing is inserted), reports an error message, and the audit entry
records ERROR. -/
theorem cycle_no_mutation_when_any_fetch_fails
    (db : List LeadRow) (sheets : List (Nat × Except String SheetData))
    (insertOk : Bool) (upsert : Nat → PyRecord → Except String String)
    (h : ∃ p ∈ sheets, ∃ e, p.2 = Except.error e) :
    (clearAndResyncDatabase db sheets insertOk upsert).db = db
      ∧ (clearAndResyncDatabase db sheets insertOk upsert).totalInserted = 0
      ∧ (clearAndResyncDatabase db sheets insertOk upsert).errorMessage.isSome = true
      ∧ (clearAndResyncDatabase db sheets insertOk upsert).loggedStatus = "ERROR" := by
  obtain ⟨msg, hmsg⟩ := validate_error_of_failed_sheet sheets h
  simp [clearAndResyncDatabase, hmsg]

/-- A sample pre-existing `leads_data` row. -/
def sampleDbRow : LeadRow :=
  { data := none, cnpj := some "9", telefone := none, nome := some "Old",
    empresa := none, consultor := none, forma_prospeccao := none,
    etapa := none, banco := "OldSheet" }

/-- An upsert oracle whose calls always succeed with `created`. -/
def okUpsert : Nat → PyRecord → Except String String :=
  fun _ _ => Except.ok "created"

/-- Witness for C2: one healthy sheet plus one failed fetch; the
one-row table survives untouched. -/
theorem cycle_no_mutation_when_any_fetch_fails_witness :
    (∃ p ∈ [((0 : Nat), Except.ok ⟨"Sheet1", []⟩),
            ((1 : Nat), (Except.error "HttpError 503" : Except String SheetData))],
        ∃ e, p.2 = Except.error e)
      ∧ ((clearAndResyncDatabase [sampleDbRow]
            [((0 : Nat), Except.ok ⟨"Sheet1", []⟩),
             ((1 : Nat), (Except.error "HttpError 503" : Except String SheetData))]
            true okUpsert).db = [sampleDbRow]
        ∧ (clearAndResyncDatabase [sampleDbRow]
            [((0 : Nat), Except.ok ⟨"Sheet1", []⟩),
             ((1 : Nat), (Except.error "HttpError 503" : Except String SheetData))]
            true okUpsert).totalInserted = 0
        ∧ (clearAndResyncDatabase [sampleDbRow]
            [((0 : Nat), Except.ok ⟨"Sheet1", []⟩),
             ((1 : Nat), (Except.error "HttpError 503" : Except String SheetData))]
            true okUpsert).errorMessage.isSome = true
        ∧ (clearAndResyncDatabase [sampleDbRow]
            [((0 : Nat), Except.ok ⟨"Sheet1", []⟩),
             ((1 : Nat), (Except.error "HttpError 503" : Except String SheetData))]
            true okUpsert).loggedStatus = "ERROR") :=
  ⟨⟨((1 : Nat), Except.error "HttpError 503"), by simp, "HttpError 503", rfl⟩,
    cycle_no_mutation_when_any_fetch_fails [sampleDbRow] _ true okUpsert
      ⟨((1 : Nat), Except.error "HttpError 503"), by simp, "HttpError 503", rfl⟩⟩

/-! ## C7: per-record isolation in the Bitrix batch -/

/-- A sample valid, JSON-serializable record dictionary (non-empty cnpj,
`data` is `None`). -/
def sampleRecord : PyRecord :=
  { data := pvNone, cnpj := pvStr "123", telefone := pvStr "555",
    nome := pvStr "Ana", empresa := pvStr "Acme", consultor := pvStr "X",
    forma_prospeccao := pvStr "Y", etapa := pvStr "Z", banco := pvStr "B" }

/-- The upsert oracle that raises exactly on the third call. -/
def failThirdUpsert : Nat → PyRecord → Except String String :=
  fun i _ => if i = 2 then Except.error "ConnectionError" else Except.ok "created"

/-- Counterexample to C7 as stated: a batch of 5 records that all pass
the cnpj/telefone check, in which only record #3's upsert raises — but
record #3 carries a parsed `datetime.date` in its `data` field (the
normal case for a row whose sheet date cell parsed). The per-record
`except` handler calls `json.dumps(record)` before updating any counter;
on the date it raises TypeError, which escapes the handler and aborts
the batch through the outer `except`: records #4 and #5 are never
processed and the outcome is `successful = 0`, `failed = 5`,
`processed = 0` — not `successful = 4`, `failed = 1`. -/
theorem date_record_upsert_failure_aborts_batch_cex :
    (processBitrixUpdates failThirdUpsert
        [dateRecord, dateRecord, dateRecord, dateRecord, dateRecord]).successful = 0
      ∧ (processBitrixUpdates failThirdUpsert
          [dateRecord, dateRecord, dateRecord, dateRecord, dateRecord]).failed = 5
      ∧ (processBitrixUpdates failThirdUpsert
          [dateRecord, dateRecord, dateRecord, dateRecord, dateRecord]).processed = 0
      ∧ recordJsonSerializable dateRecord = false
      ∧ (bitrixGetField dateRecord.cnpj = "" && bitrixGetField dateRecord.telefone = "")
          = false := by
  decide

/-- C7 (amended): in a batch of 5 records that all pass the
cnpj/telefone check, when the upsert of record #3 (0-based position 2)
raises, every other upsert returns `created` or `updated`, AND the
failing record is JSON-serializable (its `data` is not a parsed date, so
the handler's own `json.dumps` logging succeeds), the raised exception
is caught and does not abort the batch: records #4 and #5 are still
processed and the outcome counts are `successful = 4`, `failed = 1` with
all 5 records processed and none skipped. (When the failing record
carries a date, the handler itself raises and the batch aborts through
the outer handler instead.) -/
theorem process_bitrix_per_record_isolation
    (r0 r1 r2 r3 r4 : PyRecord) (u : Nat → PyRecord → Except String String)
    (hv0 : (bitrixGetField r0.cnpj = "" && bitrixGetField r0.telefone = "") = false)
    (hv1 : (bitrixGetField r1.cnpj = "" && bitrixGetField r1.telefone = "") = false)
    (hv2 : (bitrixGetField r2.cnpj = "" && bitrixGetField r2.telefone = "") = false)
    (hv3 : (bitrixGetField r3.cnpj = "" && bitrixGetField r3.telefone = "") = false)
    (hv4 : (bitrixGetField r4.cnpj = "" && bitrixGetField r4.telefone = "") = false)
    (hj2 : recordJsonSerializable r2 = true)
    (h2 : ∃ e, u 2 r2 = Except.error e)
    (h0 : u 0 r0 = Except.ok "created" ∨ u 0 r0 = Except.ok "updated")
    (h1 : u 1 r1 = Except.ok "created" ∨ u 1 r1 = Except.ok "updated")
    (h3 : u 3 r3 = Except.ok "created" ∨ u 3 r3 = Except.ok "updated")
    (h4 : u 4 r4 = Except.ok "created" ∨ u 4 r4 = Except.ok "updated") :
    (processBitrixUpdates u [r0, r1, r2, r3, r4]).successful = 4
      ∧ (processBitrixUpdates u [r0, r1, r2, r3, r4]).failed = 1
      ∧ (processBitrixUpdates u [r0, r1, r2, r3, r4]).processed = 5
      ∧ (processBitrixUpdates u [r0, r1, r2, r3, r4]).skipped = 0 := by
  obtain ⟨e2, h2⟩ := h2
  have htake : List.take 50 [r0, r1, r2, r3, r4] = [r0, r1, r2, r3, r4] :=
    List.take_of_length_le (by simp)
  rcases h0 with h0 | h0 <;> rcases h1 with h1 | h1 <;>
    rcases h3 with h3 | h3 <;> rcases h4 with h4 | h4 <;>
    simp [processBitrixUpdates, processBitrixRecords, htake,
      hv0, hv1, hv2, hv3, hv4, hj2, h0, h1, h2, h3, h4, emptyBitrixOutcome]

/-- Witness for the amended C7 at a concrete 5-record batch of
serializable records whose third upsert raises. -/
theorem process_bitrix_per_record_isolation_witness :
    ((bitrixGetField sampleRecord.cnpj = "" && bitrixGetField sampleRecord.telefone = "") = false)
      ∧ recordJsonSerializable sampleRecord = true
      ∧ (∃ e, failThirdUpsert 2 sampleRecord = Except.error e)
      ∧ (failThirdUpsert 0 sampleRecord = Except.ok "created"
          ∨ failThirdUpsert 0 sampleRecord = Except.ok "updated")
      ∧ ((processBitrixUpdates failThirdUpsert
            [sampleRecord, sampleRecord, sampleRecord, sampleRecord, sampleRecord]).successful = 4
        ∧ (processBitrixUpdates failThirdUpsert
            [sampleRecord, sampleRecord, sampleRecord, sampleRecord, sampleRecord]).failed = 1
        ∧ (processBitrixUpdates failThirdUpsert
            [sampleRecord, sampleRecord, sampleRecord, sampleRecord, sampleRecord]).processed = 5
        ∧ (processBitrixUpdates failThirdUpsert
            [sampleRecord, sampleRecord, sampleRecord, sampleRecord, sampleRecord]).skipped = 0) :=
  ⟨by decide, by decide, ⟨"ConnectionError", rfl⟩, Or.inl rfl,
    process_bitrix_per_record_isolation sampleRecord sampleRecord sampleRecord
      sampleRecord sampleRecord failThirdUpsert
      (by decide) (by decide) (by decide) (by decide) (by decide) (by decide)
      ⟨"ConnectionError", rfl⟩ (Or.inl rfl) (Or.inl rfl) (Or.inl rfl) (Or.inl rfl)⟩

/-! ## Key-membership lemmas for the snapshots -/

/-- Dictionary assignment adds exactly the assigned key to the key set. -/
theorem snapshotHasKey_assign (s : Snapshot) (k' : String) (v : PyRecord) (k : String) :
    snapshotHasKey (snapshotAssign s k' v) k = true
      ↔ (snapshotHasKey s k = true ∨ k' = k) := by
  unfold snapshotAssign
  split
  case isTrue h =>
    have hkeys : snapshotHasKey (List.map (fun p => if p.1 = k' then (k', v) else p) s) k
        = snapshotHasKey s k := by
      unfold snapshotHasKey
      rw [List.any_map]
      congr 1
      funext p
      by_cases hp : p.1 = k' <;> simp [Function.comp, hp]
    rw [hkeys]
    constructor
    · exact Or.inl
    · rintro (h' | rfl)
      · exact h'
      · exact h
  case isFalse h =>
    unfold snapshotHasKey
    rw [List.any_append]
    simp

/-- One `_capture_current_snapshot` loop step adds exactly the row's
hash to the key set. -/
theorem snapshotHasKey_captureStep (snap : Snapshot) (r : LeadRow) (k : String) :
    snapshotHasKey (captureStep snap r) k = true
      ↔ (snapshotHasKey snap k = true ∨ rowHash r = k) :=
  snapshotHasKey_assign snap (rowHash r) (leadRowToPyRecord r) k

/-- One `_create_new_data_snapshot` loop step adds exactly the tuple's
hash to the key set. -/
theorem snapshotHasKey_createStep (snap : Snapshot) (r : LeadRow) (k : String) :
    snapshotHasKey (createStep snap r) k = true
      ↔ (snapshotHasKey snap k = true ∨ rowHash r = k) := by
  unfold createStep
  split
  case isTrue h =>
    constructor
    · exact Or.inl
    · rintro (h' | rfl)
      · exact h'
      · exact h
  case isFalse h =>
    unfold snapshotHasKey
    rw [List.any_append]
    simp

/-- The keys of the captured snapshot are exactly the hashes of the
table's rows. -/
theorem captureCurrentSnapshot_hasKey (rows : List LeadRow) (k : String) :
    snapshotHasKey (captureCurrentSnapshot rows) k = true
      ↔ ∃ r ∈ rows, rowHash r = k := by
  have haux : ∀ (l : List LeadRow) (snap : Snapshot),
      snapshotHasKey (List.foldl captureStep snap l) k = true
        ↔ (snapshotHasKey snap k = true ∨ ∃ r ∈ l, rowHash r = k) := by
    intro l
    induction l with
    | nil => intro snap; simp
    | cons r rest ih =>
      intro snap
      rw [List.foldl_cons, ih, snapshotHasKey_captureStep]
      simp only [List.mem_cons]
      constructor
      · rintro ((h | hr) | ⟨x, hx, hxk⟩)
        · exact Or.inl h
        · exact Or.inr ⟨r, Or.inl rfl, hr⟩
        · exact Or.inr ⟨x, Or.inr hx, hxk⟩
      · rintro (h | ⟨x, (rfl | hx), hxk⟩)
        · exact Or.inl (Or.inl h)
        · exact Or.inl (Or.inr hxk)
        · exact Or.inr ⟨x, hx, hxk⟩
  rw [captureCurrentSnapshot, haux rows ([] : Snapshot)]
  simp [snapshotHasKey]

/-- The keys of the new-data snapshot are exactly the hashes of the
insert tuples. -/
theorem createNewDataSnapshot_hasKey (vals : List LeadRow) (k : String) :
    snapshotHasKey (createNewDataSnapshot vals) k = true
      ↔ ∃ r ∈ vals, rowHash r = k := by
  have haux : ∀ (l : List LeadRow) (snap : Snapshot),
      snapshotHasKey (List.foldl createStep snap l) k = true
        ↔ (snapshotHasKey snap k = true ∨ ∃ r ∈ l, rowHash r = k) := by
    intro l
    induction l with
    | nil => intro snap; simp
    | cons r rest ih =>
      intro snap
      rw [List.foldl_cons, ih, snapshotHasKey_createStep]
      simp only [List.mem_cons]
      constructor
      · rintro ((h | hr) | ⟨x, hx, hxk⟩)
        · exact Or.inl h
        · exact Or.inr ⟨r, Or.inl rfl, hr⟩
        · exact Or.inr ⟨x, Or.inr hx, hxk⟩
      · rintro (h | ⟨x, (rfl | hx), hxk⟩)
        · exact Or.inl (Or.inl h)
        · exact Or.inl (Or.inr hxk)
        · exact Or.inr ⟨x, hx, hxk⟩
  rw [createNewDataSnapshot, haux vals ([] : Snapshot)]
  simp [snapshotHasKey]

/-- Every entry of the new-data snapshot carries the hash of one of the
insert tuples as its key. -/
theorem createNewDataSnapshot_key_of_mem (vals : List LeadRow) (p : String × PyRecord)
    (hp : p ∈ createNewDataSnapshot vals) : ∃ r ∈ vals, rowHash r = p.1 := by
  rw [← createNewDataSnapshot_hasKey]
  unfold snapshotHasKey
  exact List.any_eq_true.mpr ⟨p, hp, by simp⟩

/-- Every entry of the captured snapshot carries the hash of one of the
table's rows as its key. -/
theorem captureCurrentSnapshot_key_of_mem (rows : List LeadRow) (p : String × PyRecord)
    (hp : p ∈ captureCurrentSnapshot rows) : ∃ r ∈ rows, rowHash r = p.1 := by
  rw [← captureCurrentSnapshot_hasKey]
  unfold snapshotHasKey
  exact List.any_eq_true.mpr ⟨p, hp, by simp⟩

/-! ## The success path of the cycle -/

/-- When every sheet fetches successfully and the bulk insert succeeds,
the cycle runs the full pipeline: the table ends up holding exactly the
accepted insert tuples, the diff compares the pre-delete snapshot with
the new-data snapshot, the audit entry records SUCCESS (written at step
9, before the Bitrix propagation of step 10), and the Bitrix summary is
computed from the new records. -/
theorem clear_and_resync_success_eq (db : List LeadRow)
    (sheets : List (Nat × Except String SheetData))
    (upsert : Nat → PyRecord → Except String String)
    (v : List (Nat × SheetData))
    (hv : validateAllSheetsDataBeforeSync sheets = Except.ok v) :
    clearAndResyncDatabase db sheets true upsert =
      { db := cycleInsertValues v,
        totalProcessed := cycleTotalProcessed v,
        totalInserted := (cycleInsertValues v).length,
        failedRecords := 0,
        errorMessage := none,
        newRecords := (compareSnapshots (captureCurrentSnapshot db)
          (createNewDataSnapshot (cycleInsertValues v))).newRecords,
        removedRecords := (compareSnapshots (captureCurrentSnapshot db)
          (createNewDataSnapshot (cycleInsertValues v))).removedRecords,
        unchangedRecords := (compareSnapshots (captureCurrentSnapshot db)
          (createNewDataSnapshot (cycleInsertValues v))).unchangedRecords,
        bitrix := some (processBitrixUpdates upsert
          (List.map Prod.snd (compareSnapshots (captureCurrentSnapshot db)
            (createNewDataSnapshot (cycleInsertValues v))).newRecords)),
        loggedStatus := "SUCCESS" } := by
  unfold clearAndResyncDatabase
  rw [hv]
  simp

/-! ## C8: an unchanged source yields an empty diff on the second run -/

/-- C8: running a cycle and then a second cycle over the identical
fetched source rows yields an empty `new` partition and an empty
`removed` partition on the second run: after the first cycle the table
holds exactly the insert tuples, so the captured snapshot's fingerprints
coincide with the new-data snapshot's fingerprints. -/
theorem second_cycle_detects_no_changes (db : List LeadRow)
    (sheets : List (Nat × Except String SheetData))
    (u1 u2 : Nat → PyRecord → Except String String)
    (v : List (Nat × SheetData))
    (hv : validateAllSheetsDataBeforeSync sheets = Except.ok v) :
    (clearAndResyncDatabase (clearAndResyncDatabase db sheets true u1).db
        sheets true u2).newRecords = []
      ∧ (clearAndResyncDatabase (clearAndResyncDatabase db sheets true u1).db
        sheets true u2).removedRecords = [] := by
  rw [clear_and_resync_success_eq db sheets u1 v hv]
  rw [clear_and_resync_success_eq (cycleInsertValues v) sheets u2 v hv]
  constructor
  · simp only [compareSnapshots]
    rw [List.filter_eq_nil_iff]
    intro p hp
    obtain ⟨r, hr, hrk⟩ := createNewDataSnapshot_key_of_mem (cycleInsertValues v) p hp
    have : snapshotHasKey (captureCurrentSnapshot (cycleInsertValues v)) p.1 = true :=
      (captureCurrentSnapshot_hasKey (cycleInsertValues v) p.1).mpr ⟨r, hr, hrk⟩
    simp [this]
  · simp only [compareSnapshots]
    rw [List.filter_eq_nil_iff]
    intro p hp
    obtain ⟨r, hr, hrk⟩ := captureCurrentSnapshot_key_of_mem (cycleInsertValues v) p hp
    have : snapshotHasKey (createNewDataSnapshot (cycleInsertValues v)) p.1 = true :=
      (createNewDataSnapshot_hasKey (cycleInsertValues v) p.1).mpr ⟨r, hr, hrk⟩
    simp [this]

/-- A sheet row with a cnpj (accepted by the gate). -/
def sheetRowA : SheetRow :=
  { data := "05/01/2024", cnpj := "111", telefone := "", nome := "Ana",
    empresa := "Acme", consultor := "X", forma_prospeccao := "Y", etapa := "Z" }

/-- A second accepted sheet row with a different cnpj. -/
def sheetRowB : SheetRow :=
  { data := "", cnpj := "222", telefone := "555", nome := "Bia",
    empresa := "Beta", consultor := "X", forma_prospeccao := "Y", etapa := "Z" }

/-- The fetched-sheet configuration used by the concrete cycle runs: one
sheet that fetches successfully with two accepted rows. -/
def sampleSheets : List (Nat × Except String SheetData) :=
  [((0 : Nat), Except.ok ⟨"Sheet1", [sheetRowA, sheetRowB]⟩)]

/-- Witness for C8 at a concrete one-sheet source with two rows. -/
theorem second_cycle_detects_no_changes_witness :
    validateAllSheetsDataBeforeSync sampleSheets
        = Except.ok [((0 : Nat), ⟨"Sheet1", [sheetRowA, sheetRowB]⟩)]
      ∧ ((clearAndResyncDatabase (clearAndResyncDatabase [sampleDbRow] sampleSheets
            true okUpsert).db sampleSheets true okUpsert).newRecords = []
        ∧ (clearAndResyncDatabase (clearAndResyncDatabase [sampleDbRow] sampleSheets
            true okUpsert).db sampleSheets true okUpsert).removedRecords = []) :=
  ⟨rfl, second_cycle_detects_no_changes [sampleDbRow] sampleSheets okUpsert okUpsert
    [((0 : Nat), ⟨"Sheet1", [sheetRowA, sheetRowB]⟩)] rfl⟩

/-! ## C5: the acceptance gate and the failed-records counter -/

/-- Stripping the empty string gives the empty string. -/
theorem pyStrip_empty : pyStrip "" = "" := rfl

/-- A sheet row carrying neither a cnpj nor a telefone. -/
def skippedRow : SheetRow :=
  { data := "", cnpj := "", telefone := "", nome := "NoContact",
    empresa := "E", consultor := "", forma_prospeccao := "", etapa := "" }

/-- The fetched-sheet configuration whose only row lacks both cnpj and
telefone. -/
def skippedRowSheets : List (Nat × Except String SheetData) :=
  [((0 : Nat), Except.ok ⟨"Sheet1", [skippedRow]⟩)]

/-- Counterexample to C5 as stated: a cycle whose only source row has
neither cnpj nor telefone skips the row (nothing is inserted) but counts
it in no counter at all — the cycle's failed-records count is 0, not 1,
because the `continue` that skips the row precedes any counter update
and `failed_count` increments only when row processing raises. -/
theorem skipped_row_not_counted_as_failed_cex :
    rowAccepted skippedRow = false
      ∧ (clearAndResyncDatabase [] skippedRowSheets true okUpsert).failedRecords = 0
      ∧ (clearAndResyncDatabase [] skippedRowSheets true okUpsert).totalProcessed = 0
      ∧ (clearAndResyncDatabase [] skippedRowSheets true okUpsert).db = []
      ∧ (clearAndResyncDatabase [] skippedRowSheets true okUpsert).errorMessage = none := by
  decide

/-- C5 (amended): a source row is accepted for insertion if and only if
it carries a non-empty (after stripping) cnpj or telefone; a row with
both absent is skipped silently — counted neither as processed nor as
failed (the failed-records count stays 0 for well-typed rows) — and the
cycle itself does not fail. -/
theorem row_acceptance_gate_and_failure_count
    (row : SheetRow) (nm : String) (rows : List SheetRow) (db : List LeadRow)
    (u : Nat → PyRecord → Except String String) :
    rowAccepted row = (pyStrip row.cnpj ≠ "" || pyStrip row.telefone ≠ "")
      ∧ (clearAndResyncDatabase db [((0 : Nat), Except.ok ⟨nm, rows⟩)] true u).db
          = List.map (processRow nm) (List.filter rowAccepted rows)
      ∧ (clearAndResyncDatabase db [((0 : Nat), Except.ok ⟨nm, rows⟩)] true u).failedRecords = 0
      ∧ (clearAndResyncDatabase db [((0 : Nat), Except.ok ⟨nm, rows⟩)] true u).totalProcessed
          = (List.filter rowAccepted rows).length
      ∧ (clearAndResyncDatabase db [((0 : Nat), Except.ok ⟨nm, rows⟩)] true u).errorMessage
          = none := by
  have hv : validateAllSheetsDataBeforeSync [((0 : Nat), Except.ok (⟨nm, rows⟩ : SheetData))]
      = Except.ok [((0 : Nat), (⟨nm, rows⟩ : SheetData))] := rfl
  refine ⟨?_, ?_, ?_, ?_, ?_⟩
  · unfold rowAccepted
    by_cases hc0 : row.cnpj = ""
    · by_cases ht0 : row.telefone = ""
      · simp [hc0, ht0, pyStrip_empty]
      · simp [hc0, ht0, pyStrip_empty]
    · by_cases ht0 : row.telefone = ""
      · simp [hc0, ht0, pyStrip_empty]
      · simp [hc0, ht0]
  · rw [clear_and_resync_success_eq db _ u _ hv]
    simp [cycleInsertValues, processSheetRows]
  · rw [clear_and_resync_success_eq db _ u _ hv]
  · rw [clear_and_resync_success_eq db _ u _ hv]
    simp [cycleTotalProcessed]
  · rw [clear_and_resync_success_eq db _ u _ hv]

/-! ## C6: the audit status written for a partially failed propagation -/

/-- An upsert oracle whose first call succeeds and whose later calls
raise. -/
def failSecondUpsert : Nat → PyRecord → Except String String :=
  fun i _ => if i = 0 then Except.ok "created" else Except.error "Bitrix timeout"

/-- Counterexample to C6 as stated: a cycle whose replace succeeds and
whose downstream propagation has one successful and one failed upsert
still writes SUCCESS (not PARTIAL) to the audit log — `log_sync_end` runs
at step 9 with `result.error_message` still `None`, before the Bitrix
processing of step 10, so downstream failures can never influence the
recorded status. -/
theorem partial_propagation_logged_success_cex :
    (clearAndResyncDatabase [] sampleSheets true failSecondUpsert).loggedStatus = "SUCCESS"
      ∧ (clearAndResyncDatabase [] sampleSheets true failSecondUpsert).loggedStatus ≠ "PARTIAL"
      ∧ ((clearAndResyncDatabase [] sampleSheets true failSecondUpsert).bitrix.getD
          emptyBitrixOutcome).successful = 1
      ∧ ((clearAndResyncDatabase [] sampleSheets true failSecondUpsert).bitrix.getD
          emptyBitrixOutcome).failed = 1
      ∧ (clearAndResyncDatabase [] sampleSheets true failSecondUpsert).errorMessage = none := by
  decide

/-- C6 (amended): for every cycle whose replace succeeds, the audit log
entry records final status SUCCESS — even when one or more downstream
CRM upserts fail while others succeed — because the entry is written
before the propagation step with `error_message` still unset. -/
theorem audit_status_success_despite_propagation_failures
    (db : List LeadRow) (sheets : List (Nat × Except String SheetData))
    (u : Nat → PyRecord → Except String String) (v : List (Nat × SheetData))
    (hv : validateAllSheetsDataBeforeSync sheets = Except.ok v)
    (hfail : 0 < ((clearAndResyncDatabase db sheets true u).bitrix.getD
      emptyBitrixOutcome).failed)
    (hsucc : 0 < ((clearAndResyncDatabase db sheets true u).bitrix.getD
      emptyBitrixOutcome).successful) :
    (clearAndResyncDatabase db sheets true u).loggedStatus = "SUCCESS" := by
  rw [clear_and_resync_success_eq db sheets u v hv]

/-- Witness for the amended C6 at a concrete partially-failing
propagation. -/
theorem audit_status_success_despite_propagation_failures_witness :
    validateAllSheetsDataBeforeSync sampleSheets
        = Except.ok [((0 : Nat), ⟨"Sheet1", [sheetRowA, sheetRowB]⟩)]
      ∧ 0 < ((clearAndResyncDatabase [] sampleSheets true failSecondUpsert).bitrix.getD
          emptyBitrixOutcome).failed
      ∧ 0 < ((clearAndResyncDatabase [] sampleSheets true failSecondUpsert).bitrix.getD
          emptyBitrixOutcome).successful
      ∧ (clearAndResyncDatabase [] sampleSheets true failSecondUpsert).loggedStatus
          = "SUCCESS" :=
  ⟨rfl, by decide, by decide,
    audit_status_success_despite_propagation_failures [] sampleSheets failSecondUpsert
      [((0 : Nat), ⟨"Sheet1", [sheetRowA, sheetRowB]⟩)] rfl (by decide) (by decide)⟩

/-! ## C1: the replace is not a commit-or-rollback unit -/

/-- Counterexample to C1 as stated: with a one-row table and a healthy
source, a bulk insert that raises after the delete leaves the table
EMPTY, not in its pre-cycle state — the connection runs with
`autocommit = True` (`startup.py`), so the delete committed immediately
and nothing rolls it back. -/
theorem insert_failure_leaves_table_empty_cex :
    (clearAndResyncDatabase [sampleDbRow] sampleSheets false okUpsert).db = []
      ∧ (clearAndResyncDatabase [sampleDbRow] sampleSheets false okUpsert).db
          ≠ [sampleDbRow]
      ∧ (clearAndResyncDatabase [sampleDbRow] sampleSheets false okUpsert).errorMessage.isSome
          = true
      ∧ (clearAndResyncDatabase [sampleDbRow] sampleSheets false okUpsert).loggedStatus
          = "ERROR" := by
  decide

/-- C1 (amended): whenever the bulk-insert phase raises after the delete
of all existing rows has executed (and there was at least one accepted
row to insert), the persisted `leads_data` table is left EMPTY — the
delete is NOT rolled back, because the connection autocommits each
statement — and the cycle returns an error outcome whose audit entry
records ERROR. -/
theorem insert_failure_not_rolled_back
    (db : List LeadRow) (sheets : List (Nat × Except String SheetData))
    (u : Nat → PyRecord → Except String String) (v : List (Nat × SheetData))
    (hv : validateAllSheetsDataBeforeSync sheets = Except.ok v)
    (hne : cycleInsertValues v ≠ []) :
    (clearAndResyncDatabase db sheets false u).db = []
      ∧ (clearAndResyncDatabase db sheets false u).errorMessage.isSome = true
      ∧ (clearAndResyncDatabase db sheets false u).loggedStatus = "ERROR" := by
  have hemp : (cycleInsertValues v).isEmpty = false := by
    cases h : cycleInsertValues v with
    | nil => exact absurd h hne
    | cons a l => rfl
  unfold clearAndResyncDatabase
  rw [hv]
  simp [hemp]

/-- Witness for the amended C1 at a concrete failing insert. -/
theorem insert_failure_not_rolled_back_witness :
    validateAllSheetsDataBeforeSync sampleSheets
        = Except.ok [((0 : Nat), ⟨"Sheet1", [sheetRowA, sheetRowB]⟩)]
      ∧ cycleInsertValues [((0 : Nat), ⟨"Sheet1", [sheetRowA, sheetRowB]⟩)] ≠ []
      ∧ ((clearAndResyncDatabase [sampleDbRow] sampleSheets false okUpsert).db = []
        ∧ (clearAndResyncDatabase [sampleDbRow] sampleSheets false okUpsert).errorMessage.isSome
            = true
        ∧ (clearAndResyncDatabase [sampleDbRow] sampleSheets false okUpsert).loggedStatus
            = "ERROR") :=
  ⟨rfl, by decide,
    insert_failure_not_rolled_back [sampleDbRow] sampleSheets okUpsert
      [((0 : Nat), ⟨"Sheet1", [sheetRowA, sheetRowB]⟩)] rfl (by decide)⟩
